/-
Verification of the Vecto-Pilot MLOps core against its specification.

Shallow embedding of:
  - app/mlops/triad_orchestrator.py  (TriadOrchestrator.execute, _check_invariants,
    _determine_error_stage)
  - app/mlops/event_store.py         (MLOpsEventStore.log_model_call, log_triad_job,
    log_metric, export_training_data, get_performance_metrics)
  - app/mlops/observability.py       (ObservabilitySystem._calculate_health_status,
    get_metrics_summary, detect_drift)
  - app/mlops/safety_guardrails.py   (SafetyGuardrails.promote_model,
    verify_release_token, rollback, get_deployment_history)

Modelling conventions:
  - Python JSON values are the inductive `Json`; `json.loads` is an abstract
    parameter `parse : String → Option Json` (standard-library code, not part of
    this repository), `none` modelling `json.JSONDecodeError`.
  - `hashlib.sha256(...).hexdigest()` is an abstract parameter
    `hashFn : String → String`; the design notes treat collisions as impossible,
    and no theorem below needs injectivity.
  - Wall-clock reads (`datetime.utcnow().isoformat()`, `time.time()`) are supplied
    as explicit `now` / latency arguments.
  - SQLite tables are Lean lists; `AUTOINCREMENT` row ids are `length + 1`
    (every insert into model_calls goes through log_model_call, so ids are 1..n).
  - Python truthiness tests (`if not x:`) are modelled value-by-value where the
    code performs them (Json.truthy, empty-string responses, falsy row ids).
-/

import Mathlib

/-- A JSON value as produced by `json.loads`. Numbers are modelled as rationals. -/
inductive Json where
  | null
  | bool (b : Bool)
  | num (n : Rat)
  | str (s : String)
  | arr (elems : List Json)
  | obj (fields : List (String × Json))

namespace Json

/-- `d.get(key)` on a Python dict parsed from JSON: first binding wins. -/
def lookup : Json → String → Option Json
  | .obj fields, key => List.lookup key fields
  | _, _ => none

/-- Python truthiness of a JSON value (`bool(x)`): `None`, `False`, `0`, `""`,
`[]`, `{}` are falsy, everything else truthy. -/
def truthy : Json → Bool
  | .null => false
  | .bool b => b
  | .num n => decide (n ≠ 0)
  | .str s => decide (s ≠ "")
  | .arr elems => !elems.isEmpty
  | .obj fields => !fields.isEmpty

end Json

/-- Counts maximal non-whitespace runs; `inWord` says whether the previous
character was part of a word. -/
def pyWordCountAux : List Char → Bool → Nat
  | [], _ => 0
  | c :: cs, inWord =>
    if c.isWhitespace then pyWordCountAux cs false
    else (if inWord then 0 else 1) + pyWordCountAux cs true

/-- Number of words of a string per Python `len(s.split())` (split on
whitespace runs, ignoring leading/trailing whitespace). -/
def pyWordCount (s : String) : Nat :=
  pyWordCountAux s.data false

/-- Errors raised inside `TriadOrchestrator.execute`, tagged by raise site.
The Python code raises `ValueError` everywhere; the constructors record which
of the distinct raise sites produced the error. -/
inductive TriadError where
  | backendError (msg : String)
  | formatError (msg : String)
  | invariantError (msg : String)
  | typeError (msg : String)
deriving DecidableEq, Repr

/-- `str(e)` of a raised error. -/
def TriadError.message : TriadError → String
  | .backendError msg => msg
  | .formatError msg => msg
  | .invariantError msg => msg
  | .typeError msg => msg

/-- The fixed required-field set of `TriadOrchestrator._check_invariants`. -/
def required_fields : List String :=
  ["name", "address", "category", "distance_miles", "drive_time_minutes", "reasoning"]

/-- Field-completeness loop of `_check_invariants`: every venue must contain all
required fields. A venue that is not a JSON object is modelled as a type error
(Python's `f not in venue` has container-specific behaviour there; no claim
depends on non-object venues). -/
def checkVenueFields : List Json → Except TriadError Unit
  | [] => .ok ()
  | venue :: rest =>
    match venue with
    | .obj fields =>
      let missing := required_fields.filter (fun f => (List.lookup f fields).isNone)
      if missing.isEmpty then checkVenueFields rest
      else .error (.invariantError "Invariant violation: venue missing fields")
    | _ => .error (.typeError "venue is not an object")

/-- Word-cap loop of `_check_invariants`: `len(venue['reasoning'].split()) >= 15`.
A non-string reasoning value is a type error (`.split()` on a non-str raises). -/
def checkVenueWordCaps : List Json → Except TriadError Unit
  | [] => .ok ()
  | venue :: rest =>
    match venue.lookup "reasoning" with
    | some (.str s) =>
      if pyWordCount s < 15 then
        .error (.invariantError "Invariant violation: venue reasoning too short")
      else checkVenueWordCaps rest
    | _ => .error (.typeError "venue reasoning is not a string")

/-- `TriadOrchestrator._check_invariants(output)` with the
`TRIAD_INVARIANT_WORD_CAPS` flag as the `wordCaps` argument: venue count ≥ 4,
all required fields on every venue, optional ≥15-word reasoning, and a truthy
`staging_area` (`if not output.get('staging_area')`). -/
def check_invariants (wordCaps : Bool) (output : Json) : Except TriadError Unit :=
  match output with
  | .obj fields =>
    match (List.lookup "venues" fields).getD (.arr []) with
    | .arr venues =>
      if venues.length < 4 then
        .error (.invariantError "Invariant violation: Must have at least 4 venues")
      else
        match checkVenueFields venues with
        | .error e => .error e
        | .ok _ =>
          match (if wordCaps then checkVenueWordCaps venues else .ok ()) with
          | .error e => .error e
          | .ok _ =>
            if ((List.lookup "staging_area" fields).getD .null).truthy then
              .ok ()
            else
              .error (.invariantError "Invariant violation: Staging area required")
    | _ => .error (.typeError "venues is not a list")
  | _ => .error (.typeError "output attribute access failed")

/-- A `model_calls` row of the event store (event_store.py schema). -/
structure ModelCall where
  id : Nat
  timestamp : String
  model_provider : String
  model_name : String
  call_type : String
  prompt_hash : String
  response_hash : Option String
  latency_ms : Option Int
  tokens_in : Option Int
  tokens_out : Option Int
  success : Bool
  error_message : Option String
  metadata : Option Json

/-- A `triad_jobs` row of the event store. `user_context` and `final_output`
are stored via `json.dumps`; we keep the JSON values themselves. -/
structure TriadJob where
  id : String
  timestamp : String
  user_context : Json
  strategist_call_id : Option Nat
  planner_call_id : Option Nat
  validator_call_id : Option Nat
  final_output : Option Json
  success : Bool
  total_latency_ms : Int
  error_stage : Option String

/-- A `metrics` row of the event store. -/
structure MetricRow where
  timestamp : String
  metric_type : String
  metric_name : String
  value : Rat
  labels : Option Json

/-- The mutable state of `MLOpsEventStore`: the content-addressed `prompts` and
`responses` tables (hash ↦ content) and the append-only row tables. -/
structure MLOpsEventStore where
  prompts : List (String × String)
  responses : List (String × String)
  model_calls : List ModelCall
  triad_jobs : List TriadJob
  metrics : List MetricRow

/-- The empty event store (freshly initialised schema). -/
def MLOpsEventStore.empty : MLOpsEventStore :=
  { prompts := [], responses := [], model_calls := [], triad_jobs := [], metrics := [] }

/-- `INSERT OR IGNORE INTO prompts/responses (hash, content, ...)`: keep the
existing row if the hash is already present. -/
def insertOrIgnore (table : List (String × String)) (h content : String) :
    List (String × String) :=
  if (List.lookup h table).isSome then table else table ++ [(h, content)]

namespace MLOpsEventStore

/-- `MLOpsEventStore.log_model_call`: content-address the prompt (and response,
when truthy), append one `model_calls` row, return the fresh row id.
`response_hash` follows `self._hash_content(response) if response else None`,
so an absent or empty response stores no hash. -/
def log_model_call (hashFn : String → String) (now : String) (st : MLOpsEventStore)
    (model_provider model_name call_type prompt : String)
    (response : Option String)
    (latency_ms tokens_in tokens_out : Option Int)
    (success : Bool)
    (error_message : Option String) (metadata : Option Json) :
    MLOpsEventStore × Nat :=
  let prompt_hash := hashFn prompt
  let response_hash := match response with
    | some r => if r = "" then none else some (hashFn r)
    | none => none
  let prompts := insertOrIgnore st.prompts prompt_hash prompt
  let responses := match response with
    | some r => if r = "" then st.responses else insertOrIgnore st.responses (hashFn r) r
    | none => st.responses
  let rowid := st.model_calls.length + 1
  let row : ModelCall :=
    { id := rowid, timestamp := now, model_provider := model_provider,
      model_name := model_name, call_type := call_type, prompt_hash := prompt_hash,
      response_hash := response_hash, latency_ms := latency_ms,
      tokens_in := tokens_in, tokens_out := tokens_out, success := success,
      error_message := error_message, metadata := metadata }
  ({ st with prompts := prompts, responses := responses,
             model_calls := st.model_calls ++ [row] }, rowid)

/-- `MLOpsEventStore.log_triad_job`: append one `triad_jobs` row.
`final_output` is stored via `json.dumps(final_output) if final_output else None`,
so a falsy artifact stores NULL. -/
def log_triad_job (now : String) (st : MLOpsEventStore) (job_id : String)
    (user_context : Json)
    (strategist_call_id planner_call_id validator_call_id : Option Nat)
    (final_output : Option Json) (success : Bool) (total_latency_ms : Int)
    (error_stage : Option String) : MLOpsEventStore :=
  let stored_output := match final_output with
    | some j => if j.truthy then some j else none
    | none => none
  let row : TriadJob :=
    { id := job_id, timestamp := now, user_context := user_context,
      strategist_call_id := strategist_call_id, planner_call_id := planner_call_id,
      validator_call_id := validator_call_id, final_output := stored_output,
      success := success, total_latency_ms := total_latency_ms,
      error_stage := error_stage }
  { st with triad_jobs := st.triad_jobs ++ [row] }

/-- `MLOpsEventStore.log_metric`: append one `metrics` row. -/
def log_metric (now : String) (st : MLOpsEventStore)
    (metric_type metric_name : String) (value : Rat) (labels : Option Json) :
    MLOpsEventStore :=
  { st with metrics := st.metrics ++
      [{ timestamp := now, metric_type := metric_type, metric_name := metric_name,
         value := value, labels := labels }] }

end MLOpsEventStore

/-- One line of the JSONL produced by `export_training_data`; `prompt` and
`response` come from the LEFT JOINs against the content tables. -/
structure ExportRecord where
  id : Nat
  timestamp : String
  model_provider : String
  model_name : String
  call_type : String
  prompt : Option String
  response : Option String
  tokens_in : Option Int
  tokens_out : Option Int
  metadata : Option Json

/-- `MLOpsEventStore.export_training_data`: successful calls, optionally
filtered by call type and date range, joined with their stored prompt and
response text. -/
def MLOpsEventStore.export_training_data (st : MLOpsEventStore)
    (call_type : Option String) (start_date end_date : Option String) :
    List ExportRecord :=
  let rows := st.model_calls.filter (fun mc =>
    mc.success &&
    (match call_type with | some ct => mc.call_type = ct | none => true) &&
    (match start_date with | some sd => sd ≤ mc.timestamp | none => true) &&
    (match end_date with | some ed => mc.timestamp ≤ ed | none => true))
  rows.map (fun mc =>
    { id := mc.id, timestamp := mc.timestamp, model_provider := mc.model_provider,
      model_name := mc.model_name, call_type := mc.call_type,
      prompt := List.lookup mc.prompt_hash st.prompts,
      response := mc.response_hash.bind (fun h => List.lookup h st.responses),
      tokens_in := mc.tokens_in, tokens_out := mc.tokens_out,
      metadata := mc.metadata })

/-- Result row of `MLOpsEventStore.get_performance_metrics`. SQL aggregates over
an empty (or all-NULL) column are NULL, modelled as `none`; `success_rate` is
the Python fallback `... if total_calls > 0 else 0`. -/
structure PerformanceMetrics where
  total_calls : Nat
  successful_calls : Option Nat
  success_rate : Rat
  avg_latency_ms : Option Rat
  max_latency_ms : Option Int
  avg_tokens_in : Option Rat
  avg_tokens_out : Option Rat
  total_tokens_in : Option Int
  total_tokens_out : Option Int

/-- SQL `AVG` over a nullable integer column: NULLs are ignored, the result is
NULL when no non-NULL value exists. -/
def sqlAvg (vals : List Int) : Option Rat :=
  if vals.isEmpty then none else some ((vals.sum : Rat) / (vals.length : Rat))

/-- SQL `SUM` over a nullable integer column (NULL when no non-NULL value). -/
def sqlSum (vals : List Int) : Option Int :=
  if vals.isEmpty then none else some vals.sum

/-- `MLOpsEventStore.get_performance_metrics`: aggregates over the calls whose
timestamp is within the trailing window (the SQL `timestamp >= datetime(...)`
comparison is modelled by a `cutoff` bound), optionally filtered by call type. -/
def MLOpsEventStore.get_performance_metrics (st : MLOpsEventStore)
    (call_type : Option String) (cutoff : String) : PerformanceMetrics :=
  let rows := st.model_calls.filter (fun mc =>
    decide (cutoff ≤ mc.timestamp) &&
    (match call_type with | some ct => decide (mc.call_type = ct) | none => true))
  let total := rows.length
  let successful := (rows.filter (fun mc => mc.success)).length
  { total_calls := total,
    successful_calls := if total = 0 then none else some successful,
    success_rate := if total > 0 then (successful : Rat) / (total : Rat) else 0,
    avg_latency_ms := sqlAvg (rows.filterMap (fun mc => mc.latency_ms)),
    max_latency_ms := (rows.filterMap (fun mc => mc.latency_ms)).max?,
    avg_tokens_in := sqlAvg (rows.filterMap (fun mc => mc.tokens_in)),
    avg_tokens_out := sqlAvg (rows.filterMap (fun mc => mc.tokens_out)),
    total_tokens_in := sqlSum (rows.filterMap (fun mc => mc.tokens_in)),
    total_tokens_out := sqlSum (rows.filterMap (fun mc => mc.tokens_out)) }

/-- The observability thresholds the health status reads
(`config["thresholds"]["success_rate"]`, `config["thresholds"]["avg_latency_ms"]`). -/
structure ObservabilityThresholds where
  success_rate : Rat
  avg_latency_ms : Rat

/-- The default observability configuration written by `load_config`. -/
def default_thresholds : ObservabilityThresholds :=
  { success_rate := 95 / 100, avg_latency_ms := 90000 }

/-- `ObservabilitySystem._calculate_health_status`: `critical` when the success
rate is below the minimum; else `degraded` when the average latency is truthy
(non-NULL and nonzero) and above the ceiling; else `healthy`. -/
def calculate_health_status (thr : ObservabilityThresholds)
    (metrics : PerformanceMetrics) : String :=
  if metrics.success_rate < thr.success_rate then "critical"
  else if (match metrics.avg_latency_ms with
    | some l => decide (l ≠ 0) && decide (l > thr.avg_latency_ms)
    | none => false) then "degraded"
  else "healthy"

/-- Result of `ObservabilitySystem.get_metrics_summary` (the time-independent
fields). -/
structure MetricsSummary where
  overall : PerformanceMetrics
  by_stage_strategist : PerformanceMetrics
  by_stage_planner : PerformanceMetrics
  by_stage_validator : PerformanceMetrics
  health_status : String

/-- `ObservabilitySystem.get_metrics_summary`: overall and per-stage aggregates
for the requested window, plus the health status of the overall aggregate. -/
def get_metrics_summary (thr : ObservabilityThresholds) (st : MLOpsEventStore)
    (cutoff : String) : MetricsSummary :=
  let overall := st.get_performance_metrics none cutoff
  { overall := overall,
    by_stage_strategist := st.get_performance_metrics (some "strategist") cutoff,
    by_stage_planner := st.get_performance_metrics (some "planner") cutoff,
    by_stage_validator := st.get_performance_metrics (some "validator") cutoff,
    health_status := calculate_health_status thr overall }

/-- The value `metrics.get(name)` reads in `detect_drift` for each compared
metric name (`success_rate` is always present in the aggregate dict). -/
def PerformanceMetrics.getMetric (m : PerformanceMetrics) : String → Option Rat
  | "success_rate" => some m.success_rate
  | "avg_latency_ms" => m.avg_latency_ms
  | "avg_tokens_in" => m.avg_tokens_in
  | "avg_tokens_out" => m.avg_tokens_out
  | _ => none

/-- The fixed metric set compared by `detect_drift`. -/
def drift_metric_names : List String :=
  ["success_rate", "avg_latency_ms", "avg_tokens_in", "avg_tokens_out"]

/-- One entry of `drift_analysis["metrics_comparison"]`. -/
structure DriftComparison where
  current : Rat
  baseline : Rat
  percent_change : Rat
  drift : Bool

/-- The drift-relevant fields of the dict returned by `detect_drift`. -/
structure DriftAnalysis where
  drift_detected : Bool
  metrics_comparison : List (String × DriftComparison)

/-- The comparison loop of `ObservabilitySystem.detect_drift`: a metric is
compared only when both window values are present and the baseline is positive;
`|percent_change| > 20` marks it drifted and sets the overall flag. -/
def detect_drift_loop (current baseline : PerformanceMetrics) :
    List String → DriftAnalysis → DriftAnalysis
  | [], acc => acc
  | name :: rest, acc =>
    let acc' :=
      match current.getMetric name, baseline.getMetric name with
      | some c, some b =>
        if b > 0 then
          let pct := (c - b) / b * 100
          { drift_detected := acc.drift_detected || decide (|pct| > 20),
            metrics_comparison := acc.metrics_comparison ++
              [(name, { current := c, baseline := b, percent_change := pct,
                        drift := decide (|pct| > 20) })] }
        else acc
      | _, _ => acc
    detect_drift_loop current baseline rest acc'

/-- `ObservabilitySystem.detect_drift` applied to the two windows' aggregates
(`current` and `baseline` are the `get_performance_metrics` results for the
current and baseline windows). -/
def detect_drift (current baseline : PerformanceMetrics) : DriftAnalysis :=
  detect_drift_loop current baseline drift_metric_names
    { drift_detected := false, metrics_comparison := [] }

/-- The `ModelResponse` dataclass of adapters/base.py. Every concrete adapter
computes `latency_ms = int((time.time() - start) * 1000)` on success, so a
successful response always carries a latency. -/
structure ModelResponse where
  content : String
  tokens_in : Option Int := none
  tokens_out : Option Int := none
  latency_ms : Int
  raw_response : Option Json := none

/-- One stage's adapter as seen by `execute`: its observability tags and the
outcome of the one `generate`/`generate_json` call the run issues to it
(`Except.error` models a raised exception with its `str(e)`). -/
structure StageCall where
  provider_name : String
  model_name : String
  result : Except String ModelResponse

/-- The stage-prompt builders `_build_strategy_prompt`, `_build_planning_prompt`,
`_build_validation_prompt`. Kept abstract: they are f-string constructions whose
text content (including Python float formatting) no claim depends on. -/
structure PromptBuilders where
  strategyPrompt : Json → String
  planningPrompt : Json → String → String
  validationPrompt : Json → Json → String

/-- The two configuration flags `execute` reads:
`TRIAD_INVARIANT_WORD_CAPS` and `TRIAD_FAIL_ON_INVALID`. -/
structure TriadSettings where
  invariantWordCaps : Bool
  failOnInvalid : Bool

/-- What `execute` does after the pipeline body: return the artifact, return
the structured `\x7b"error": str(e), "stage": error_stage\x7d` payload, or
re-raise the terminal error. -/
inductive ExecOutcome where
  | ok (artifact : Json)
  | errorPayload (error : String) (stage : String)
  | raised (e : TriadError)

/-- Python truthiness of an optional row id (`if validator_id:`); row ids
produced by `log_model_call` are ≥ 1, so `some 0` never occurs in practice. -/
def pyTruthyId : Option Nat → Bool
  | some i => decide (i ≠ 0)
  | none => false

/-- `TriadOrchestrator._determine_error_stage`: the deepest stage with a
recorded (truthy) call id, else `initialization`. -/
def determine_error_stage
    (strategist_id planner_id validator_id : Option Nat) : String :=
  if pyTruthyId validator_id then "validator"
  else if pyTruthyId planner_id then "planner"
  else if pyTruthyId strategist_id then "strategist"
  else "initialization"

/-- The `except` branch of `execute`: attribute the failure, write the failed
`TriadJob` row and the error-rate metric, then either re-raise or convert to
the structured payload according to `TRIAD_FAIL_ON_INVALID`. -/
def execute_fail (now : String) (cfg : TriadSettings) (job_id : String)
    (user_context : Json) (total_latency : Int)
    (sid pid vid : Option Nat) (e : TriadError) (st : MLOpsEventStore) :
    MLOpsEventStore × ExecOutcome :=
  let stage := determine_error_stage sid pid vid
  let st := st.log_triad_job now job_id user_context sid pid vid none false
    total_latency (some stage)
  let st := st.log_metric now "error_rate" ("triad_" ++ stage) 1 none
  if cfg.failOnInvalid then (st, .raised e)
  else (st, .errorPayload e.message stage)

/-- `TriadOrchestrator.execute`: the three-stage pipeline over the supplied
adapter outcomes. `parse` models `json.loads` (`none` = `JSONDecodeError`),
`hashFn` the ledger's content hashing, `now` the wall-clock timestamp and
`total_latency` the measured run latency. Each successful stage call is logged
before the next stage begins; the final artifact is checked against the
invariants; exactly one `TriadJob` row is written on success or failure. -/
def execute (hashFn : String → String) (parse : String → Option Json)
    (prompts : PromptBuilders) (cfg : TriadSettings)
    (strategist planner validator : StageCall)
    (job_id now : String) (total_latency : Int)
    (user_context : Json) (st : MLOpsEventStore) :
    MLOpsEventStore × ExecOutcome :=
  match strategist.result with
  | .error e =>
    execute_fail now cfg job_id user_context total_latency none none none
      (.backendError e) st
  | .ok sres =>
    let sprompt := prompts.strategyPrompt user_context
    let (st, sid) := st.log_model_call hashFn now strategist.provider_name
      strategist.model_name "strategist" sprompt (some sres.content)
      (some sres.latency_ms) sres.tokens_in sres.tokens_out true none
      (some (.obj [("job_id", .str job_id)]))
    match planner.result with
    | .error e =>
      execute_fail now cfg job_id user_context total_latency (some sid) none none
        (.backendError e) st
    | .ok pres =>
      let pprompt := prompts.planningPrompt user_context sres.content
      let (st, pid) := st.log_model_call hashFn now planner.provider_name
        planner.model_name "planner" pprompt (some pres.content)
        (some pres.latency_ms) pres.tokens_in pres.tokens_out true none
        (some (.obj [("job_id", .str job_id)]))
      match parse pres.content with
      | none =>
        execute_fail now cfg job_id user_context total_latency (some sid)
          (some pid) none (.formatError "Planner returned invalid JSON") st
      | some plan_data =>
        match validator.result with
        | .error e =>
          execute_fail now cfg job_id user_context total_latency (some sid)
            (some pid) none (.backendError e) st
        | .ok vres =>
          let vprompt := prompts.validationPrompt user_context plan_data
          let (st, vid) := st.log_model_call hashFn now validator.provider_name
            validator.model_name "validator" vprompt (some vres.content)
            (some vres.latency_ms) vres.tokens_in vres.tokens_out true none
            (some (.obj [("job_id", .str job_id)]))
          match parse vres.content with
          | none =>
            execute_fail now cfg job_id user_context total_latency (some sid)
              (some pid) (some vid)
              (.formatError "Validator returned invalid JSON") st
          | some final_output =>
            match check_invariants cfg.invariantWordCaps final_output with
            | .error e =>
              execute_fail now cfg job_id user_context total_latency (some sid)
                (some pid) (some vid) e st
            | .ok _ =>
              let st := st.log_triad_job now job_id user_context (some sid)
                (some pid) (some vid) (some final_output) true total_latency none
              let st := st.log_metric now "latency" "triad_total"
                (total_latency : Rat) none
              let st := st.log_metric now "latency" "strategist"
                (sres.latency_ms : Rat) none
              let st := st.log_metric now "latency" "planner"
                (pres.latency_ms : Rat) none
              let st := st.log_metric now "latency" "validator"
                (vres.latency_ms : Rat) none
              (st, .ok final_output)

/-- The `DeploymentStage` enumeration of safety_guardrails.py. -/
inductive DeploymentStage where
  | development
  | canary
  | staged
  | production
  | rollback
deriving DecidableEq, Repr

/-- The string value of the `str`-valued enum (what `json.dumps` serializes). -/
def DeploymentStage.value : DeploymentStage → String
  | .development => "development"
  | .canary => "canary"
  | .staged => "staged"
  | .production => "production"
  | .rollback => "rollback"

/-- The `valid_paths` dict of `promote_model` (`dict.get(from_stage, [])`). -/
def valid_paths : DeploymentStage → List DeploymentStage
  | .development => [.canary]
  | .canary => [.staged, .rollback]
  | .staged => [.production, .rollback]
  | .production => [.rollback]
  | .rollback => []

/-- `SafetyGuardrails._get_traffic_percentage`. -/
def get_traffic_percentage : DeploymentStage → Nat
  | .development => 0
  | .canary => 5
  | .staged => 25
  | .production => 100
  | .rollback => 0

/-- The three distinct `ValueError` raise sites of `promote_model`. -/
inductive PromotionError where
  | invalidTransition
  | missingEvaluation
  | unauthorizedRelease
deriving DecidableEq, Repr

/-- One line of the append-only audit log (`audit.jsonl`). -/
structure AuditEntry where
  timestamp : String
  action : String
  user : String
  details : Json

/-- The state of `SafetyGuardrails`: the audit-log lines and the contents of the
release-token file (`none` = the file does not exist). -/
structure SafetyGuardrails where
  audit_entries : List AuditEntry
  release_token_file : Option String

/-- Python `str.strip()`: drop leading and trailing whitespace. -/
def pyStrip (s : String) : String :=
  ⟨((s.data.dropWhile Char.isWhitespace).reverse.dropWhile Char.isWhitespace).reverse⟩

namespace SafetyGuardrails

/-- `SafetyGuardrails.verify_release_token`: false when no token file is
configured, else compare SHA-256 digests of the supplied token and the
stripped file contents. -/
def verify_release_token (hashFn : String → String) (g : SafetyGuardrails)
    (token : String) : Bool :=
  match g.release_token_file with
  | none => false
  | some contents => decide (hashFn token = hashFn (pyStrip contents))

/-- `SafetyGuardrails.audit_log`: append one entry, `user` defaulting to
`"system"`. -/
def audit_log (now : String) (g : SafetyGuardrails) (action : String)
    (details : Json) (user : Option String) : SafetyGuardrails :=
  { g with audit_entries := g.audit_entries ++
      [{ timestamp := now, action := action, user := user.getD "system",
         details := details }] }

end SafetyGuardrails

/-- The promotion record `promote_model` builds, audits and returns. -/
structure Promotion where
  model_id : String
  from_stage : DeploymentStage
  to_stage : DeploymentStage
  promoted_at : String
  evaluation_metrics : Option Json
  traffic_percentage : Nat

/-- The promotion record as the JSON dict written to the audit log. -/
def Promotion.toJson (p : Promotion) : Json :=
  .obj [("model_id", .str p.model_id),
        ("from_stage", .str p.from_stage.value),
        ("to_stage", .str p.to_stage.value),
        ("promoted_at", .str p.promoted_at),
        ("evaluation_metrics", p.evaluation_metrics.getD .null),
        ("traffic_percentage", .num (p.traffic_percentage : Rat))]

/-- Python truthiness of the optional `evaluation_metrics` dict
(`if not evaluation_metrics:` — both `None` and `\x7b\x7d` are falsy). -/
def pyTruthyOptJson : Option Json → Bool
  | some j => j.truthy
  | none => false

/-- `SafetyGuardrails.promote_model`: validate the transition, then the
evaluation-metrics requirement for promotion into canary/staged/production,
then the release-token requirement for production
(`if not release_token or not self.verify_release_token(release_token)`);
on success append exactly one audit entry and return the promotion record.
Every failure raises before any state change. -/
def SafetyGuardrails.promote_model (hashFn : String → String) (now : String)
    (g : SafetyGuardrails) (model_id : String)
    (from_stage to_stage : DeploymentStage)
    (release_token : Option String) (evaluation_metrics : Option Json) :
    SafetyGuardrails × Except PromotionError Promotion :=
  if to_stage ∉ valid_paths from_stage then
    (g, .error .invalidTransition)
  else if to_stage ∈ [DeploymentStage.canary, .staged, .production] &&
      !pyTruthyOptJson evaluation_metrics then
    (g, .error .missingEvaluation)
  else if to_stage = .production &&
      !(match release_token with
        | some t => decide (t ≠ "") && g.verify_release_token hashFn t
        | none => false) then
    (g, .error .unauthorizedRelease)
  else
    let promotion : Promotion :=
      { model_id := model_id, from_stage := from_stage, to_stage := to_stage,
        promoted_at := now, evaluation_metrics := evaluation_metrics,
        traffic_percentage := get_traffic_percentage to_stage }
    (g.audit_log now "model_promotion" promotion.toJson none, .ok promotion)

/-- `SafetyGuardrails.rollback`: always succeeds, appending one
`emergency_rollback` audit entry whose details carry `current_model`,
`rollback_to`, `reason` and `rolled_back_at` (no `model_id` field). -/
def SafetyGuardrails.rollback (now : String) (g : SafetyGuardrails)
    (current_model_id previous_model_id reason : String) :
    SafetyGuardrails × Json :=
  let details : Json :=
    .obj [("current_model", .str current_model_id),
          ("rollback_to", .str previous_model_id),
          ("reason", .str reason),
          ("rolled_back_at", .str now)]
  (g.audit_log now "emergency_rollback" details none, details)

/-- Python `entry["details"].get("model_id") == model_id` for a string
`model_id`: true only when the details dict maps `model_id` to that string. -/
def detailsModelIdEq (details : Json) (model_id : String) : Bool :=
  match details.lookup "model_id" with
  | some (.str s) => decide (s = model_id)
  | _ => false

/-- `SafetyGuardrails.get_deployment_history`: the promotion/rollback audit
entries, filtered by `model_id` when given, sorted by timestamp most recent
first (Python's stable `sorted(..., reverse=True)`), truncated to `limit`. -/
def SafetyGuardrails.get_deployment_history (g : SafetyGuardrails)
    (model_id : Option String) (limit : Nat) : List AuditEntry :=
  let history := g.audit_entries.filter (fun e =>
    (decide (e.action = "model_promotion") || decide (e.action = "emergency_rollback")) &&
    (match model_id with
     | none => true
     | some m => detailsModelIdEq e.details m))
  (history.mergeSort (fun a b => decide (b.timestamp ≤ a.timestamp))).take limit

/-- Baseline window aggregate for the C8 witness: success rate 1, average
latency 100, token averages absent. -/
def metricsBaseline : PerformanceMetrics :=
  { total_calls := 10, successful_calls := some 10, success_rate := 1,
    avg_latency_ms := some 100, max_latency_ms := some 100,
    avg_tokens_in := none, avg_tokens_out := none,
    total_tokens_in := none, total_tokens_out := none }

/-- Current window aggregate whose average latency moved from 100 to 125. -/
def metricsCurrent125 : PerformanceMetrics :=
  { metricsBaseline with avg_latency_ms := some 125 }

/-- Current window aggregate whose average latency moved from 100 to 110. -/
def metricsCurrent110 : PerformanceMetrics :=
  { metricsBaseline with avg_latency_ms := some 110 }

/-- A complete venue object for witnesses: all six required fields, with a
16-word reasoning string. -/
def sampleVenue : Json :=
  .obj [("name", .str "Cafe Uno"), ("address", .str "1 Main St Suite 4"),
        ("category", .str "cafe"), ("distance_miles", .num 1),
        ("drive_time_minutes", .num 3),
        ("reasoning", .str "busy area with steady demand from offices hotels and events all through the evening hours today")]

/-- A final artifact satisfying every invariant: staging area plus 4 venues. -/
def sampleArtifact : Json :=
  .obj [("staging_area", .obj [("name", .str "Hub"), ("address", .str "2 Center Ave")]),
        ("venues", .arr [sampleVenue, sampleVenue, sampleVenue, sampleVenue])]

/-- The planner-stage JSON used by witnesses. -/
def samplePlan : Json :=
  .obj [("staging_area", .obj [("name", .str "Hub")]), ("venues", .arr [sampleVenue])]

/-- A concrete `json.loads` stand-in for witnesses: parses the two fixed
response texts, fails on everything else. -/
def sampleParse (s : String) : Option Json :=
  if s = "PLAN_TEXT" then some samplePlan
  else if s = "FINAL_TEXT" then some sampleArtifact
  else none

/-- Constant prompt builders for witnesses. -/
def samplePrompts : PromptBuilders :=
  { strategyPrompt := fun _ => "strategy prompt",
    planningPrompt := fun _ _ => "planning prompt",
    validationPrompt := fun _ _ => "validation prompt" }

/-- The strategist stage call for witnesses. -/
def sampleStrategist : StageCall :=
  { provider_name := "anthropic", model_name := "claude-sonnet-4-20250514",
    result := .ok { content := "STRAT_TEXT", latency_ms := 5 } }

/-- The planner stage call for witnesses. -/
def samplePlanner : StageCall :=
  { provider_name := "openai", model_name := "gpt-5",
    result := .ok { content := "PLAN_TEXT", latency_ms := 7 } }

/-- The validator stage call for witnesses. -/
def sampleValidator : StageCall :=
  { provider_name := "google", model_name := "gemini-2.0-flash-001",
    result := .ok { content := "FINAL_TEXT", latency_ms := 9 } }

/-- An artifact with only 3 venues (violating the minimum-count invariant). -/
def sampleArtifact3 : Json :=
  .obj [("staging_area", .obj [("name", .str "Hub"), ("address", .str "2 Center Ave")]),
        ("venues", .arr [sampleVenue, sampleVenue, sampleVenue])]

/-- Parse stand-in for the C2 witness: the validator text parses to the
3-venue artifact. -/
def sampleParse3 (s : String) : Option Json :=
  if s = "PLAN_TEXT" then some samplePlan
  else if s = "FINAL3_TEXT" then some sampleArtifact3
  else none

/-- Validator stage call whose (successful) response parses to 3 venues. -/
def sampleValidator3 : StageCall :=
  { provider_name := "google", model_name := "gemini-2.0-flash-001",
    result := .ok { content := "FINAL3_TEXT", latency_ms := 9 } }

/-- Planner stage call whose (successful) response is not parseable JSON. -/
def samplePlannerBad : StageCall :=
  { provider_name := "openai", model_name := "gpt-5",
    result := .ok { content := "NOT_JSON", latency_ms := 7 } }

/-- The failed `TriadJob` row the `except` branch of `execute` writes. -/
def failedTriadJob (job_id now : String) (user_context : Json)
    (total_latency : Int) (sid pid vid : Option Nat) : TriadJob :=
  { id := job_id, timestamp := now, user_context := user_context,
    strategist_call_id := sid, planner_call_id := pid,
    validator_call_id := vid, final_output := none, success := false,
    total_latency_ms := total_latency,
    error_stage := some (determine_error_stage sid pid vid) }

/-- A guardrails state built by promoting model `m1` development→canary at t1
and then recording an emergency rollback of `m1` at t2. -/
def sampleGuardrails : SafetyGuardrails :=
  (((({ audit_entries := [], release_token_file := none } :
      SafetyGuardrails).promote_model (fun s => s) "t1" "m1"
        .development .canary none
        (some (.obj [("success_rate", .num 1)]))).1).rollback
    "t2" "m1" "m0" "perf regression").1

/-! ## Theorems about the promotion state machine -/

/-- C6: a promotion request succeeds only when the requested `(from_stage,
to_stage)` pair is one of the six transitions of `valid_paths`
(development→canary, canary→staged, canary→rollback, staged→production,
staged→rollback, production→rollback); any other pair fails with the
invalid-transition error with the guardrails state unchanged, i.e. before any
audit-log append or other side effect. -/
theorem promote_model_transition_guard
    (hashFn : String → String) (now : String) (g : SafetyGuardrails)
    (model_id : String) (from_stage to_stage : DeploymentStage)
    (release_token : Option String) (evaluation_metrics : Option Json) :
    (to_stage ∉ valid_paths from_stage →
      g.promote_model hashFn now model_id from_stage to_stage release_token
        evaluation_metrics = (g, .error .invalidTransition)) ∧
    (∀ p, (g.promote_model hashFn now model_id from_stage to_stage release_token
        evaluation_metrics).2 = .ok p → to_stage ∈ valid_paths from_stage) := by
  constructor
  · intro h
    simp [SafetyGuardrails.promote_model, h]
  · intro p hp
    by_contra h
    simp [SafetyGuardrails.promote_model, h] at hp

/-- Witness for C6: requesting development→production directly fails with the
invalid-transition error and appends no audit entry. -/
theorem promote_model_transition_guard_witness :
    SafetyGuardrails.promote_model (fun s => s) "t0"
        { audit_entries := [], release_token_file := none } "model-a"
        .development .production none none =
      ({ audit_entries := [], release_token_file := none },
        .error .invalidTransition) :=
  (promote_model_transition_guard (fun s => s) "t0"
    { audit_entries := [], release_token_file := none } "model-a"
    .development .production none none).1 (by decide)

/-- C5: for a staged→production promotion with a truthy evaluation-metrics
payload, an unsupplied (absent or empty — both falsy in Python) token or a
token failing digest verification fails with the unauthorized-release error
and appends no audit entry; a supplied token passing digest verification
succeeds, returns a promotion with `traffic_percentage = 100` and appends
exactly one audit entry recording that promotion. -/
theorem promote_staged_to_production_release_token
    (hashFn : String → String) (now : String) (g : SafetyGuardrails)
    (model_id : String) (release_token : Option String)
    (evaluation_metrics : Option Json)
    (hmet : pyTruthyOptJson evaluation_metrics = true) :
    ((match release_token with
      | some t => decide (t ≠ "") && g.verify_release_token hashFn t
      | none => false) = false →
      g.promote_model hashFn now model_id .staged .production release_token
        evaluation_metrics = (g, .error .unauthorizedRelease)) ∧
    (∀ t, release_token = some t → t ≠ "" →
      g.verify_release_token hashFn t = true →
      g.promote_model hashFn now model_id .staged .production release_token
        evaluation_metrics =
        ({ g with audit_entries := g.audit_entries ++
            [{ timestamp := now, action := "model_promotion", user := "system",
               details := Promotion.toJson
                 { model_id := model_id, from_stage := .staged,
                   to_stage := .production, promoted_at := now,
                   evaluation_metrics := evaluation_metrics,
                   traffic_percentage := 100 } }] },
          .ok { model_id := model_id, from_stage := .staged,
                to_stage := .production, promoted_at := now,
                evaluation_metrics := evaluation_metrics,
                traffic_percentage := 100 })) := by
  constructor
  · intro hno
    simp [SafetyGuardrails.promote_model, valid_paths, hmet, hno]
    simpa using hno
  · intro t ht hne hver
    subst ht
    simp [SafetyGuardrails.promote_model, valid_paths, hmet, hne, hver,
      SafetyGuardrails.audit_log, get_traffic_percentage]

/-- Witness for C5: with configured token file "sekret", promoting
staged→production with no token fails unauthorized with no audit append, and
with the matching token succeeds with one audit entry at traffic 100. -/
theorem promote_staged_to_production_release_token_witness :
    SafetyGuardrails.promote_model (fun s => s) "t1"
        { audit_entries := [], release_token_file := some "sekret" } "model-a"
        .staged .production none (some (.obj [("success_rate", .num 1)])) =
      ({ audit_entries := [], release_token_file := some "sekret" },
        .error .unauthorizedRelease) ∧
    SafetyGuardrails.promote_model (fun s => s) "t1"
        { audit_entries := [], release_token_file := some "sekret" } "model-a"
        .staged .production (some "sekret")
        (some (.obj [("success_rate", .num 1)])) =
      ({ audit_entries :=
          [{ timestamp := "t1", action := "model_promotion", user := "system",
             details := Promotion.toJson
               { model_id := "model-a", from_stage := .staged,
                 to_stage := .production, promoted_at := "t1",
                 evaluation_metrics := some (.obj [("success_rate", .num 1)]),
                 traffic_percentage := 100 } }],
         release_token_file := some "sekret" },
        .ok { model_id := "model-a", from_stage := .staged,
              to_stage := .production, promoted_at := "t1",
              evaluation_metrics := some (.obj [("success_rate", .num 1)]),
              traffic_percentage := 100 }) :=
  ⟨(promote_staged_to_production_release_token (fun s => s) "t1"
      { audit_entries := [], release_token_file := some "sekret" } "model-a"
      none (some (.obj [("success_rate", .num 1)])) (by decide)).1 (by decide),
   (promote_staged_to_production_release_token (fun s => s) "t1"
      { audit_entries := [], release_token_file := some "sekret" } "model-a"
      (some "sekret") (some (.obj [("success_rate", .num 1)])) (by decide)).2
      "sekret" rfl (by decide) (by decide)⟩

/-! ## Theorems about drift detection -/

/-- Every comparison entry produced by the drift loop beyond the accumulator
records the two windows' values for its metric, a positive baseline, the
percent-change formula, and the 20%-threshold drift mark. -/
theorem detect_drift_loop_mem (current baseline : PerformanceMetrics)
    (names : List String) (acc : DriftAnalysis) :
    ∀ ne ∈ (detect_drift_loop current baseline names acc).metrics_comparison,
      ne ∈ acc.metrics_comparison ∨
      (current.getMetric ne.1 = some ne.2.current ∧
       baseline.getMetric ne.1 = some ne.2.baseline ∧
       0 < ne.2.baseline ∧
       ne.2.percent_change = (ne.2.current - ne.2.baseline) / ne.2.baseline * 100 ∧
       ne.2.drift = decide (|ne.2.percent_change| > 20)) := by
  induction names generalizing acc with
  | nil =>
    intro ne h
    exact .inl h
  | cons name rest ih =>
    intro ne h
    simp only [detect_drift_loop] at h
    rcases hcur : current.getMetric name with - | c <;>
      rcases hbase : baseline.getMetric name with - | b <;>
      simp only [hcur, hbase] at h
    · exact ih acc ne h
    · exact ih acc ne h
    · exact ih acc ne h
    · by_cases hb0 : b > 0
      · rw [if_pos hb0] at h
        rcases ih _ ne h with hin | hp
        · simp only [List.mem_append, List.mem_singleton] at hin
          rcases hin with hin | hin
          · exact .inl hin
          · subst hin
            exact .inr ⟨hcur, hbase, hb0, rfl, rfl⟩
        · exact .inr hp
      · rw [if_neg hb0] at h
        exact ih acc ne h

/-- The drift loop preserves the invariant that `drift_detected` equals
"some comparison entry is marked drifted". -/
theorem detect_drift_loop_consistent (current baseline : PerformanceMetrics)
    (names : List String) (acc : DriftAnalysis)
    (hacc : acc.drift_detected =
      acc.metrics_comparison.any (fun p => p.2.drift)) :
    (detect_drift_loop current baseline names acc).drift_detected =
      (detect_drift_loop current baseline names acc).metrics_comparison.any
        (fun p => p.2.drift) := by
  induction names generalizing acc with
  | nil => simpa [detect_drift_loop] using hacc
  | cons name rest ih =>
    simp only [detect_drift_loop]
    rcases hcur : current.getMetric name with - | c <;>
      rcases hbase : baseline.getMetric name with - | b <;>
      simp only [hcur, hbase]
    · exact ih acc hacc
    · exact ih acc hacc
    · exact ih acc hacc
    · by_cases hb0 : b > 0
      · rw [if_pos hb0]
        apply ih
        simp [hacc, List.any_append]
      · rw [if_neg hb0]
        exact ih acc hacc

/-- C8: in `detect_drift`, every compared metric entry carries both windows'
values and the percent change from the baseline, and is marked drifted exactly
when the absolute percent change exceeds 20; `drift_detected` is true exactly
when at least one compared metric is drifted. -/
theorem detect_drift_threshold (current baseline : PerformanceMetrics) :
    (∀ ne ∈ (detect_drift current baseline).metrics_comparison,
      current.getMetric ne.1 = some ne.2.current ∧
      baseline.getMetric ne.1 = some ne.2.baseline ∧
      0 < ne.2.baseline ∧
      ne.2.percent_change = (ne.2.current - ne.2.baseline) / ne.2.baseline * 100 ∧
      (ne.2.drift = true ↔ |ne.2.percent_change| > 20)) ∧
    ((detect_drift current baseline).drift_detected = true ↔
      ∃ ne ∈ (detect_drift current baseline).metrics_comparison,
        ne.2.drift = true) := by
  constructor
  · intro ne h
    rcases detect_drift_loop_mem current baseline drift_metric_names
      { drift_detected := false, metrics_comparison := [] } ne h with hin | hp
    · simp at hin
    · refine ⟨hp.1, hp.2.1, hp.2.2.1, hp.2.2.2.1, ?_⟩
      rw [hp.2.2.2.2]
      exact decide_eq_true_iff
  · have h := detect_drift_loop_consistent current baseline drift_metric_names
      { drift_detected := false, metrics_comparison := [] } (by simp)
    unfold detect_drift
    rw [h, List.any_eq_true]

/-- Witness for C8: a metric moving 100 → 125 is reported with percent change
25 and sets `drift_detected`; a move 100 → 110 does not on its own. -/
theorem detect_drift_threshold_witness :
    (detect_drift metricsCurrent125 metricsBaseline).drift_detected = true ∧
    (("avg_latency_ms",
      ({ current := 125, baseline := 100, percent_change := 25, drift := true } :
        DriftComparison)) ∈
      (detect_drift metricsCurrent125 metricsBaseline).metrics_comparison) ∧
    (detect_drift metricsCurrent110 metricsBaseline).drift_detected = false := by
  have h125 : detect_drift metricsCurrent125 metricsBaseline =
      { drift_detected := true,
        metrics_comparison :=
          [("success_rate",
            { current := 1, baseline := 1, percent_change := 0, drift := false }),
           ("avg_latency_ms",
            { current := 125, baseline := 100, percent_change := 25,
              drift := true })] } := by
    norm_num [detect_drift, detect_drift_loop, drift_metric_names,
      PerformanceMetrics.getMetric, metricsCurrent125, metricsBaseline]
  have h110 : (detect_drift metricsCurrent110 metricsBaseline).drift_detected =
      false := by
    norm_num [detect_drift, detect_drift_loop, drift_metric_names,
      PerformanceMetrics.getMetric, metricsCurrent110, metricsBaseline]
  refine ⟨?_, ?_, h110⟩
  · exact (detect_drift_threshold metricsCurrent125 metricsBaseline).2.mpr
      ⟨("avg_latency_ms",
        { current := 125, baseline := 100, percent_change := 25, drift := true }),
       by rw [h125]; simp, rfl⟩
  · rw [h125]; simp

/-! ## Theorems about the Triad orchestrator -/

/-- An artifact passing the invariant check is a nonempty JSON object, hence
truthy, so `log_triad_job` stores it rather than NULL. -/
theorem check_invariants_ok_truthy (wordCaps : Bool) (output : Json)
    (h : check_invariants wordCaps output = .ok ()) : output.truthy = true := by
  cases output with
  | obj fields =>
    cases fields with
    | nil => simp [check_invariants, Json.truthy] at h
    | cons kv rest => simp [Json.truthy]
  | null => simp [check_invariants] at h
  | bool b => simp [check_invariants] at h
  | num n => simp [check_invariants] at h
  | str s => simp [check_invariants] at h
  | arr elems => simp [check_invariants] at h

/-- The failure path of `execute` (`except` branch): exactly one failed
`TriadJob` row is appended, carrying the attributed stage and no artifact,
and the configuration flag alone chooses re-raise versus structured payload. -/
theorem execute_fail_spec (now : String) (cfg : TriadSettings) (job_id : String)
    (user_context : Json) (total_latency : Int) (sid pid vid : Option Nat)
    (e : TriadError) (st : MLOpsEventStore) :
    (execute_fail now cfg job_id user_context total_latency sid pid vid e
        st).1.triad_jobs = st.triad_jobs ++
      [{ id := job_id, timestamp := now, user_context := user_context,
         strategist_call_id := sid, planner_call_id := pid,
         validator_call_id := vid, final_output := none, success := false,
         total_latency_ms := total_latency,
         error_stage := some (determine_error_stage sid pid vid) }] ∧
    (cfg.failOnInvalid = true →
      (execute_fail now cfg job_id user_context total_latency sid pid vid e
        st).2 = .raised e) ∧
    (cfg.failOnInvalid = false →
      (execute_fail now cfg job_id user_context total_latency sid pid vid e
        st).2 = .errorPayload e.message (determine_error_stage sid pid vid)) := by
  refine ⟨?_, ?_, ?_⟩
  · by_cases hf : cfg.failOnInvalid <;>
      simp [execute_fail, MLOpsEventStore.log_triad_job,
        MLOpsEventStore.log_metric, hf]
  · intro hf
    simp [execute_fail, hf]
  · intro hf
    simp [execute_fail, hf]

/-- C1: when all three adapter calls succeed, both JSON parses succeed, and the
parsed validator output satisfies the invariants, `execute` returns the parsed
final artifact and appends exactly one `TriadJob` row with `success = true`,
the artifact stored, and all three `ModelCall` ids populated (the three
freshly created row ids). -/
theorem execute_success_one_job
    (hashFn : String → String) (parse : String → Option Json)
    (prompts : PromptBuilders) (cfg : TriadSettings)
    (strategist planner validator : StageCall)
    (job_id now : String) (total_latency : Int) (user_context : Json)
    (st : MLOpsEventStore)
    (sres pres vres : ModelResponse) (plan final : Json)
    (hs : strategist.result = .ok sres)
    (hp : planner.result = .ok pres)
    (hv : validator.result = .ok vres)
    (hparseP : parse pres.content = some plan)
    (hparseV : parse vres.content = some final)
    (hinv : check_invariants cfg.invariantWordCaps final = .ok ()) :
    (execute hashFn parse prompts cfg strategist planner validator job_id now
        total_latency user_context st).2 = .ok final ∧
    (execute hashFn parse prompts cfg strategist planner validator job_id now
        total_latency user_context st).1.triad_jobs = st.triad_jobs ++
      [{ id := job_id, timestamp := now, user_context := user_context,
         strategist_call_id := some (st.model_calls.length + 1),
         planner_call_id := some (st.model_calls.length + 2),
         validator_call_id := some (st.model_calls.length + 3),
         final_output := some final, success := true,
         total_latency_ms := total_latency, error_stage := none }] := by
  have htr := check_invariants_ok_truthy cfg.invariantWordCaps final hinv
  constructor
  · simp [execute, hs, hp, hv, hparseP, hparseV, hinv,
      MLOpsEventStore.log_model_call, MLOpsEventStore.log_triad_job,
      MLOpsEventStore.log_metric]
  · simp [execute, hs, hp, hv, hparseP, hparseV, hinv,
      MLOpsEventStore.log_model_call, MLOpsEventStore.log_triad_job,
      MLOpsEventStore.log_metric, htr]

/-- Witness for C1: a fully successful run on the empty store returns the
artifact and records exactly one successful `TriadJob` row with call ids
1, 2, 3. -/
theorem execute_success_one_job_witness :
    (execute (fun s => s) sampleParse samplePrompts
        { invariantWordCaps := true, failOnInvalid := true }
        sampleStrategist samplePlanner sampleValidator "job-1" "t0" 42
        (Json.obj []) MLOpsEventStore.empty).2 = .ok sampleArtifact ∧
    (execute (fun s => s) sampleParse samplePrompts
        { invariantWordCaps := true, failOnInvalid := true }
        sampleStrategist samplePlanner sampleValidator "job-1" "t0" 42
        (Json.obj []) MLOpsEventStore.empty).1.triad_jobs =
      [{ id := "job-1", timestamp := "t0", user_context := Json.obj [],
         strategist_call_id := some 1, planner_call_id := some 2,
         validator_call_id := some 3, final_output := some sampleArtifact,
         success := true, total_latency_ms := 42, error_stage := none }] := by
  have h := execute_success_one_job (fun s => s) sampleParse samplePrompts
    { invariantWordCaps := true, failOnInvalid := true }
    sampleStrategist samplePlanner sampleValidator "job-1" "t0" 42
    (Json.obj []) MLOpsEventStore.empty
    { content := "STRAT_TEXT", latency_ms := 5 }
    { content := "PLAN_TEXT", latency_ms := 7 }
    { content := "FINAL_TEXT", latency_ms := 9 }
    samplePlan sampleArtifact rfl rfl rfl rfl rfl rfl
  exact ⟨h.1, by simpa [MLOpsEventStore.empty] using h.2⟩

/-- C2: when all three adapter calls succeed and both parses succeed but the
independent re-check of the parsed artifact raises an invariant violation, the
run fails attributed to the validation stage (`"validator"`, the deepest stage
with a recorded call id): one failed `TriadJob` row carrying the populated
validator call id and no artifact, while the validator `ModelCall` row itself
was recorded with `success = true`; the flag then chooses re-raise versus the
structured payload. -/
theorem execute_invariant_violation_validation_stage
    (hashFn : String → String) (parse : String → Option Json)
    (prompts : PromptBuilders) (cfg : TriadSettings)
    (strategist planner validator : StageCall)
    (job_id now : String) (total_latency : Int) (user_context : Json)
    (st : MLOpsEventStore)
    (sres pres vres : ModelResponse) (plan final : Json) (msg : String)
    (hs : strategist.result = .ok sres)
    (hp : planner.result = .ok pres)
    (hv : validator.result = .ok vres)
    (hparseP : parse pres.content = some plan)
    (hparseV : parse vres.content = some final)
    (hinv : check_invariants cfg.invariantWordCaps final =
      .error (.invariantError msg)) :
    (execute hashFn parse prompts cfg strategist planner validator job_id now
        total_latency user_context st).1.triad_jobs = st.triad_jobs ++
      [{ id := job_id, timestamp := now, user_context := user_context,
         strategist_call_id := some (st.model_calls.length + 1),
         planner_call_id := some (st.model_calls.length + 2),
         validator_call_id := some (st.model_calls.length + 3),
         final_output := none, success := false,
         total_latency_ms := total_latency, error_stage := some "validator" }] ∧
    ((execute hashFn parse prompts cfg strategist planner validator job_id now
        total_latency user_context st).1.model_calls.drop
          st.model_calls.length).map (fun r => (r.call_type, r.success)) =
      [("strategist", true), ("planner", true), ("validator", true)] ∧
    (cfg.failOnInvalid = true →
      (execute hashFn parse prompts cfg strategist planner validator job_id now
          total_latency user_context st).2 = .raised (.invariantError msg)) ∧
    (cfg.failOnInvalid = false →
      (execute hashFn parse prompts cfg strategist planner validator job_id now
          total_latency user_context st).2 = .errorPayload msg "validator") := by
  refine ⟨?_, ?_, ?_, ?_⟩
  · by_cases hf : cfg.failOnInvalid <;>
      simp [execute, hs, hp, hv, hparseP, hparseV, hinv, execute_fail, hf,
        MLOpsEventStore.log_model_call, MLOpsEventStore.log_triad_job,
        MLOpsEventStore.log_metric, determine_error_stage, pyTruthyId]
  · by_cases hf : cfg.failOnInvalid <;>
      simp [execute, hs, hp, hv, hparseP, hparseV, hinv, execute_fail, hf,
        MLOpsEventStore.log_model_call, MLOpsEventStore.log_triad_job,
        MLOpsEventStore.log_metric, List.drop_left]
  · intro hf
    simp [execute, hs, hp, hv, hparseP, hparseV, hinv, execute_fail, hf,
      MLOpsEventStore.log_model_call, MLOpsEventStore.log_triad_job,
      MLOpsEventStore.log_metric]
  · intro hf
    simp [execute, hs, hp, hv, hparseP, hparseV, hinv, execute_fail, hf,
      MLOpsEventStore.log_model_call, MLOpsEventStore.log_triad_job,
      MLOpsEventStore.log_metric, determine_error_stage, pyTruthyId,
      TriadError.message]

/-- Witness for C2: a run whose validator output parses but has only 3 venues
fails attributed to the validation stage with the validator call recorded. -/
theorem execute_invariant_violation_validation_stage_witness :
    (execute (fun s => s) sampleParse3 samplePrompts
        { invariantWordCaps := true, failOnInvalid := false }
        sampleStrategist samplePlanner sampleValidator3 "job-2" "t0" 42
        (Json.obj []) MLOpsEventStore.empty).1.triad_jobs =
      [{ id := "job-2", timestamp := "t0", user_context := Json.obj [],
         strategist_call_id := some 1, planner_call_id := some 2,
         validator_call_id := some 3, final_output := none, success := false,
         total_latency_ms := 42, error_stage := some "validator" }] ∧
    (execute (fun s => s) sampleParse3 samplePrompts
        { invariantWordCaps := true, failOnInvalid := false }
        sampleStrategist samplePlanner sampleValidator3 "job-2" "t0" 42
        (Json.obj []) MLOpsEventStore.empty).2 =
      .errorPayload "Invariant violation: Must have at least 4 venues"
        "validator" := by
  have h := execute_invariant_violation_validation_stage (fun s => s)
    sampleParse3 samplePrompts { invariantWordCaps := true, failOnInvalid := false }
    sampleStrategist samplePlanner sampleValidator3 "job-2" "t0" 42
    (Json.obj []) MLOpsEventStore.empty
    { content := "STRAT_TEXT", latency_ms := 5 }
    { content := "PLAN_TEXT", latency_ms := 7 }
    { content := "FINAL3_TEXT", latency_ms := 9 }
    samplePlan sampleArtifact3 "Invariant violation: Must have at least 4 venues"
    rfl rfl rfl rfl rfl rfl
  exact ⟨by simpa [MLOpsEventStore.empty] using h.1, h.2.2.2 rfl⟩

/-- C3: when the strategist and planner calls succeed but the planner output
is not parseable JSON, the run fails attributed to the planning stage
(`"planner"`, the deepest stage with a recorded call id): one failed
`TriadJob` row with no validator call id, only strategist and planner
`ModelCall` rows recorded, the planner-JSON error surfaced per the flag, and
the result independent of the validator adapter (it is never called). -/
theorem execute_planner_parse_failure_planning_stage
    (hashFn : String → String) (parse : String → Option Json)
    (prompts : PromptBuilders) (cfg : TriadSettings)
    (strategist planner validator : StageCall)
    (job_id now : String) (total_latency : Int) (user_context : Json)
    (st : MLOpsEventStore)
    (sres pres : ModelResponse)
    (hs : strategist.result = .ok sres)
    (hp : planner.result = .ok pres)
    (hparseP : parse pres.content = none) :
    (execute hashFn parse prompts cfg strategist planner validator job_id now
        total_latency user_context st).1.triad_jobs = st.triad_jobs ++
      [{ id := job_id, timestamp := now, user_context := user_context,
         strategist_call_id := some (st.model_calls.length + 1),
         planner_call_id := some (st.model_calls.length + 2),
         validator_call_id := none, final_output := none, success := false,
         total_latency_ms := total_latency, error_stage := some "planner" }] ∧
    ((execute hashFn parse prompts cfg strategist planner validator job_id now
        total_latency user_context st).1.model_calls.drop
          st.model_calls.length).map (fun r => r.call_type) =
      ["strategist", "planner"] ∧
    (cfg.failOnInvalid = true →
      (execute hashFn parse prompts cfg strategist planner validator job_id now
          total_latency user_context st).2 =
        .raised (.formatError "Planner returned invalid JSON")) ∧
    (cfg.failOnInvalid = false →
      (execute hashFn parse prompts cfg strategist planner validator job_id now
          total_latency user_context st).2 =
        .errorPayload "Planner returned invalid JSON" "planner") ∧
    (∀ validator2 : StageCall,
      execute hashFn parse prompts cfg strategist planner validator2 job_id now
        total_latency user_context st =
      execute hashFn parse prompts cfg strategist planner validator job_id now
        total_latency user_context st) := by
  refine ⟨?_, ?_, ?_, ?_, ?_⟩
  · by_cases hf : cfg.failOnInvalid <;>
      simp [execute, hs, hp, hparseP, execute_fail, hf,
        MLOpsEventStore.log_model_call, MLOpsEventStore.log_triad_job,
        MLOpsEventStore.log_metric, determine_error_stage, pyTruthyId]
  · by_cases hf : cfg.failOnInvalid <;>
      simp [execute, hs, hp, hparseP, execute_fail, hf,
        MLOpsEventStore.log_model_call, MLOpsEventStore.log_triad_job,
        MLOpsEventStore.log_metric, List.drop_left]
  · intro hf
    simp [execute, hs, hp, hparseP, execute_fail, hf,
      MLOpsEventStore.log_model_call, MLOpsEventStore.log_triad_job,
      MLOpsEventStore.log_metric]
  · intro hf
    simp [execute, hs, hp, hparseP, execute_fail, hf,
      MLOpsEventStore.log_model_call, MLOpsEventStore.log_triad_job,
      MLOpsEventStore.log_metric, determine_error_stage, pyTruthyId,
      TriadError.message]
  · intro validator2
    simp [execute, hs, hp, hparseP]

/-- Witness for C3: with an unparseable planner response, the run fails at the
planning stage with no validator row, and swapping the validator adapter
leaves the result unchanged. -/
theorem execute_planner_parse_failure_planning_stage_witness :
    (execute (fun s => s) sampleParse samplePrompts
        { invariantWordCaps := true, failOnInvalid := false }
        sampleStrategist samplePlannerBad sampleValidator "job-3" "t0" 42
        (Json.obj []) MLOpsEventStore.empty).1.triad_jobs =
      [{ id := "job-3", timestamp := "t0", user_context := Json.obj [],
         strategist_call_id := some 1, planner_call_id := some 2,
         validator_call_id := none, final_output := none, success := false,
         total_latency_ms := 42, error_stage := some "planner" }] ∧
    (execute (fun s => s) sampleParse samplePrompts
        { invariantWordCaps := true, failOnInvalid := false }
        sampleStrategist samplePlannerBad sampleValidator "job-3" "t0" 42
        (Json.obj []) MLOpsEventStore.empty).2 =
      .errorPayload "Planner returned invalid JSON" "planner" ∧
    execute (fun s => s) sampleParse samplePrompts
        { invariantWordCaps := true, failOnInvalid := false }
        sampleStrategist samplePlannerBad sampleValidator3 "job-3" "t0" 42
        (Json.obj []) MLOpsEventStore.empty =
      execute (fun s => s) sampleParse samplePrompts
        { invariantWordCaps := true, failOnInvalid := false }
        sampleStrategist samplePlannerBad sampleValidator "job-3" "t0" 42
        (Json.obj []) MLOpsEventStore.empty := by
  have h := execute_planner_parse_failure_planning_stage (fun s => s)
    sampleParse samplePrompts { invariantWordCaps := true, failOnInvalid := false }
    sampleStrategist samplePlannerBad sampleValidator "job-3" "t0" 42
    (Json.obj []) MLOpsEventStore.empty
    { content := "STRAT_TEXT", latency_ms := 5 }
    { content := "NOT_JSON", latency_ms := 7 }
    rfl rfl rfl
  exact ⟨by simpa [MLOpsEventStore.empty] using h.1, h.2.2.2.1 rfl,
    h.2.2.2.2 sampleValidator3⟩

/-- C4: every failing run appends exactly one failed `TriadJob` row (success
false, artifact NULL, attributed stage recorded) to the ledger, in both
configurations — the write happens before the error is surfaced — and the
flag alone decides the outcome: re-raise when set, the structured
`\x7berror, stage\x7d` payload when unset. -/
theorem execute_failure_writes_job_then_surfaces
    (hashFn : String → String) (parse : String → Option Json)
    (prompts : PromptBuilders) (cfg : TriadSettings)
    (strategist planner validator : StageCall)
    (job_id now : String) (total_latency : Int) (user_context : Json)
    (st : MLOpsEventStore)
    (hfail : ∀ a : Json, (execute hashFn parse prompts cfg strategist planner
      validator job_id now total_latency user_context st).2 ≠ .ok a) :
    ∃ job : TriadJob, ∃ e : TriadError, ∃ stage : String,
      (execute hashFn parse prompts cfg strategist planner validator job_id now
          total_latency user_context st).1.triad_jobs =
        st.triad_jobs ++ [job] ∧
      job.success = false ∧ job.final_output = none ∧
      job.error_stage = some stage ∧
      (cfg.failOnInvalid = true →
        (execute hashFn parse prompts cfg strategist planner validator job_id
            now total_latency user_context st).2 = .raised e) ∧
      (cfg.failOnInvalid = false →
        (execute hashFn parse prompts cfg strategist planner validator job_id
            now total_latency user_context st).2 =
          .errorPayload e.message stage) := by
  rcases hs : strategist.result with es | sres
  · refine ⟨failedTriadJob job_id now user_context total_latency none none none,
      .backendError es, determine_error_stage none none none,
      ?_, rfl, rfl, rfl, ?_, ?_⟩
    · by_cases hf : cfg.failOnInvalid <;>
        simp [execute, hs, execute_fail, hf, failedTriadJob,
          MLOpsEventStore.log_triad_job, MLOpsEventStore.log_metric]
    · intro hf
      simp [execute, hs, execute_fail, hf]
    · intro hf
      simp [execute, hs, execute_fail, hf]
  rcases hp : planner.result with ep | pres
  · refine ⟨failedTriadJob job_id now user_context total_latency
        (some (st.model_calls.length + 1)) none none,
      .backendError ep,
      determine_error_stage (some (st.model_calls.length + 1)) none none,
      ?_, rfl, rfl, rfl, ?_, ?_⟩
    · by_cases hf : cfg.failOnInvalid <;>
        simp [execute, hs, hp, execute_fail, hf, failedTriadJob,
          MLOpsEventStore.log_model_call, MLOpsEventStore.log_triad_job,
          MLOpsEventStore.log_metric]
    · intro hf
      simp [execute, hs, hp, execute_fail, hf,
        MLOpsEventStore.log_model_call]
    · intro hf
      simp [execute, hs, hp, execute_fail, hf,
        MLOpsEventStore.log_model_call]
  rcases hpp : parse pres.content with - | plan
  · refine ⟨failedTriadJob job_id now user_context total_latency
        (some (st.model_calls.length + 1)) (some (st.model_calls.length + 2))
        none,
      .formatError "Planner returned invalid JSON",
      determine_error_stage (some (st.model_calls.length + 1))
        (some (st.model_calls.length + 2)) none,
      ?_, rfl, rfl, rfl, ?_, ?_⟩
    · by_cases hf : cfg.failOnInvalid <;>
        simp [execute, hs, hp, hpp, execute_fail, hf, failedTriadJob,
          MLOpsEventStore.log_model_call, MLOpsEventStore.log_triad_job,
          MLOpsEventStore.log_metric]
    · intro hf
      simp [execute, hs, hp, hpp, execute_fail, hf,
        MLOpsEventStore.log_model_call]
    · intro hf
      simp [execute, hs, hp, hpp, execute_fail, hf,
        MLOpsEventStore.log_model_call, determine_error_stage, pyTruthyId,
        TriadError.message]
  rcases hv : validator.result with ev | vres
  · refine ⟨failedTriadJob job_id now user_context total_latency
        (some (st.model_calls.length + 1)) (some (st.model_calls.length + 2))
        none,
      .backendError ev,
      determine_error_stage (some (st.model_calls.length + 1))
        (some (st.model_calls.length + 2)) none,
      ?_, rfl, rfl, rfl, ?_, ?_⟩
    · by_cases hf : cfg.failOnInvalid <;>
        simp [execute, hs, hp, hpp, hv, execute_fail, hf, failedTriadJob,
          MLOpsEventStore.log_model_call, MLOpsEventStore.log_triad_job,
          MLOpsEventStore.log_metric]
    · intro hf
      simp [execute, hs, hp, hpp, hv, execute_fail, hf,
        MLOpsEventStore.log_model_call]
    · intro hf
      simp [execute, hs, hp, hpp, hv, execute_fail, hf,
        MLOpsEventStore.log_model_call, determine_error_stage, pyTruthyId,
        TriadError.message]
  rcases hpv : parse vres.content with - | final
  · refine ⟨failedTriadJob job_id now user_context total_latency
        (some (st.model_calls.length + 1)) (some (st.model_calls.length + 2))
        (some (st.model_calls.length + 3)),
      .formatError "Validator returned invalid JSON",
      determine_error_stage (some (st.model_calls.length + 1))
        (some (st.model_calls.length + 2)) (some (st.model_calls.length + 3)),
      ?_, rfl, rfl, rfl, ?_, ?_⟩
    · by_cases hf : cfg.failOnInvalid <;>
        simp [execute, hs, hp, hpp, hv, hpv, execute_fail, hf, failedTriadJob,
          MLOpsEventStore.log_model_call, MLOpsEventStore.log_triad_job,
          MLOpsEventStore.log_metric]
    · intro hf
      simp [execute, hs, hp, hpp, hv, hpv, execute_fail, hf,
        MLOpsEventStore.log_model_call]
    · intro hf
      simp [execute, hs, hp, hpp, hv, hpv, execute_fail, hf,
        MLOpsEventStore.log_model_call, determine_error_stage, pyTruthyId,
        TriadError.message]
  rcases hci : check_invariants cfg.invariantWordCaps final with einv | u
  · refine ⟨failedTriadJob job_id now user_context total_latency
        (some (st.model_calls.length + 1)) (some (st.model_calls.length + 2))
        (some (st.model_calls.length + 3)),
      einv,
      determine_error_stage (some (st.model_calls.length + 1))
        (some (st.model_calls.length + 2)) (some (st.model_calls.length + 3)),
      ?_, rfl, rfl, rfl, ?_, ?_⟩
    · by_cases hf : cfg.failOnInvalid <;>
        simp [execute, hs, hp, hpp, hv, hpv, hci, execute_fail, hf,
          failedTriadJob, MLOpsEventStore.log_model_call,
          MLOpsEventStore.log_triad_job, MLOpsEventStore.log_metric]
    · intro hf
      simp [execute, hs, hp, hpp, hv, hpv, hci, execute_fail, hf,
        MLOpsEventStore.log_model_call]
    · intro hf
      simp [execute, hs, hp, hpp, hv, hpv, hci, execute_fail, hf,
        MLOpsEventStore.log_model_call, determine_error_stage, pyTruthyId,
        TriadError.message]
  · exfalso
    apply hfail final
    simp [execute, hs, hp, hpp, hv, hpv, hci,
      MLOpsEventStore.log_model_call, MLOpsEventStore.log_triad_job,
      MLOpsEventStore.log_metric]

/-- Witness for C4: a concrete failing run (unparseable planner output, flag
unset) has written its failed `TriadJob` row and surfaces the structured
payload. -/
theorem execute_failure_writes_job_then_surfaces_witness :
    ∃ job : TriadJob, ∃ e : TriadError, ∃ stage : String,
      (execute (fun s => s) sampleParse samplePrompts
          { invariantWordCaps := true, failOnInvalid := false }
          sampleStrategist samplePlannerBad sampleValidator "job-4" "t0" 42
          (Json.obj []) MLOpsEventStore.empty).1.triad_jobs =
        MLOpsEventStore.empty.triad_jobs ++ [job] ∧
      job.success = false ∧ job.final_output = none ∧
      job.error_stage = some stage ∧
      (({ invariantWordCaps := true, failOnInvalid := false } :
          TriadSettings).failOnInvalid = true →
        (execute (fun s => s) sampleParse samplePrompts
            { invariantWordCaps := true, failOnInvalid := false }
            sampleStrategist samplePlannerBad sampleValidator "job-4" "t0" 42
            (Json.obj []) MLOpsEventStore.empty).2 = .raised e) ∧
      (({ invariantWordCaps := true, failOnInvalid := false } :
          TriadSettings).failOnInvalid = false →
        (execute (fun s => s) sampleParse samplePrompts
            { invariantWordCaps := true, failOnInvalid := false }
            sampleStrategist samplePlannerBad sampleValidator "job-4" "t0" 42
            (Json.obj []) MLOpsEventStore.empty).2 =
          .errorPayload e.message stage) :=
  execute_failure_writes_job_then_surfaces (fun s => s) sampleParse
    samplePrompts { invariantWordCaps := true, failOnInvalid := false }
    sampleStrategist samplePlannerBad sampleValidator "job-4" "t0" 42
    (Json.obj []) MLOpsEventStore.empty
    (by
      intro a h
      simp [execute, sampleStrategist, samplePlannerBad, sampleParse,
        execute_fail, MLOpsEventStore.log_model_call,
        MLOpsEventStore.log_triad_job, MLOpsEventStore.log_metric] at h)

/-! ## Theorems about the event ledger -/

/-- A key absent from an association table stays resolvable on the right of an
append. -/
theorem lookup_append_left_none {β : Type} (k : String)
    (l1 l2 : List (String × β)) (h : List.lookup k l1 = none) :
    List.lookup k (l1 ++ l2) = List.lookup k l2 := by
  induction l1 with
  | nil => rfl
  | cons kv tl ih =>
    rcases kv with ⟨a, b⟩
    by_cases hk : k == a
    · simp [List.lookup, hk] at h
    · simp only [List.lookup, hk, List.cons_append] at h ⊢
      exact ih h

/-- `INSERT OR IGNORE` inserts when the key is absent. -/
theorem insertOrIgnore_of_none (t : List (String × String)) (k v : String)
    (h : List.lookup k t = none) : insertOrIgnore t k v = t ++ [(k, v)] := by
  simp [insertOrIgnore, h]

/-- `INSERT OR IGNORE` keeps the table when the key is present. -/
theorem insertOrIgnore_of_some (t : List (String × String)) (k v : String)
    (h : (List.lookup k t).isSome) : insertOrIgnore t k v = t := by
  simp [insertOrIgnore, h]

/-- Looking up the key just appended behind an absent prefix yields its value. -/
theorem lookup_append_singleton (t : List (String × String)) (k v : String)
    (h : List.lookup k t = none) : List.lookup k (t ++ [(k, v)]) = some v := by
  rw [lookup_append_left_none k t [(k, v)] h]
  simp [List.lookup]

/-- C7: recording two calls with identical prompt text stores the prompt text
once, keyed by its content hash (the second insert is ignored), while two
distinct `ModelCall` rows are created, both referencing that hash; exporting
the store then yields records for both call ids carrying the same stored
prompt content. -/
theorem log_model_call_content_addressing
    (hashFn : String → String) (now1 now2 : String)
    (st st1 st2 : MLOpsEventStore) (id1 id2 : Nat)
    (prov1 name1 ct1 prov2 name2 ct2 prompt : String)
    (resp1 resp2 : Option String)
    (lat1 ti1 to1 lat2 ti2 to2 : Option Int)
    (em1 em2 : Option String) (md1 md2 : Option Json)
    (hfresh : List.lookup (hashFn prompt) st.prompts = none)
    (h1 : st.log_model_call hashFn now1 prov1 name1 ct1 prompt resp1 lat1 ti1
      to1 true em1 md1 = (st1, id1))
    (h2 : st1.log_model_call hashFn now2 prov2 name2 ct2 prompt resp2 lat2 ti2
      to2 true em2 md2 = (st2, id2)) :
    st2.prompts = st.prompts ++ [(hashFn prompt, prompt)] ∧
    List.lookup (hashFn prompt) st2.prompts = some prompt ∧
    id1 = st.model_calls.length + 1 ∧
    id2 = st.model_calls.length + 2 ∧
    (st2.model_calls.drop st.model_calls.length).map
      (fun r => (r.id, r.prompt_hash, r.success)) =
      [(id1, hashFn prompt, true), (id2, hashFn prompt, true)] ∧
    (id1, some prompt) ∈ (st2.export_training_data none none none).map
      (fun r => (r.id, r.prompt)) ∧
    (id2, some prompt) ∈ (st2.export_training_data none none none).map
      (fun r => (r.id, r.prompt)) := by
  have hins1 : insertOrIgnore st.prompts (hashFn prompt) prompt =
      st.prompts ++ [(hashFn prompt, prompt)] :=
    insertOrIgnore_of_none _ _ _ hfresh
  have hlook : List.lookup (hashFn prompt)
      (st.prompts ++ [(hashFn prompt, prompt)]) = some prompt :=
    lookup_append_singleton _ _ _ hfresh
  have hins2 : insertOrIgnore (st.prompts ++ [(hashFn prompt, prompt)])
      (hashFn prompt) prompt = st.prompts ++ [(hashFn prompt, prompt)] :=
    insertOrIgnore_of_some _ _ _ (by rw [hlook]; rfl)
  simp only [MLOpsEventStore.log_model_call, Prod.mk.injEq] at h1 h2
  obtain ⟨hst1, hid1⟩ := h1
  subst hst1
  obtain ⟨hst2, hid2⟩ := h2
  subst hst2
  subst hid1
  subst hid2
  refine ⟨?_, ?_, rfl, ?_, ?_, ?_, ?_⟩
  · simp [hins1, hins2]
  · simp [hins1, hins2, hlook]
  · simp
  · simp [List.drop_left, List.append_assoc]
  · simp [MLOpsEventStore.export_training_data, hins1, hins2, hlook]
  · simp [MLOpsEventStore.export_training_data, hins1, hins2, hlook]

/-- Witness for C7: two calls with the same prompt on the empty store store the
prompt text once, get row ids 1 and 2, and both export with that content. -/
theorem log_model_call_content_addressing_witness :
    let r1 := MLOpsEventStore.empty.log_model_call
      (fun s => String.append s "#h") "t1" "openai" "gpt-5" "planner"
      "hello prompt" (some "resp one") (some 5) none none true none none
    let r2 := r1.1.log_model_call
      (fun s => String.append s "#h") "t2" "openai" "gpt-5" "planner"
      "hello prompt" (some "resp two") (some 6) none none true none none
    r2.1.prompts = [("hello prompt#h", "hello prompt")] ∧
    r1.2 = 1 ∧ r2.2 = 2 ∧
    (1, some "hello prompt") ∈ (r2.1.export_training_data none none none).map
      (fun r => (r.id, r.prompt)) ∧
    (2, some "hello prompt") ∈ (r2.1.export_training_data none none none).map
      (fun r => (r.id, r.prompt)) := by
  intro r1 r2
  have h := log_model_call_content_addressing
    (fun s => String.append s "#h") "t1" "t2" MLOpsEventStore.empty r1.1 r2.1
    r1.2 r2.2 "openai" "gpt-5" "planner" "openai" "gpt-5" "planner"
    "hello prompt" (some "resp one") (some "resp two") (some 5) none none
    (some 6) none none none none none none rfl rfl rfl
  refine ⟨?_, ?_, ?_, h.2.2.2.2.2.1, h.2.2.2.2.2.2⟩
  · simpa [MLOpsEventStore.empty] using h.1
  · simpa [MLOpsEventStore.empty] using h.2.2.1
  · simpa [MLOpsEventStore.empty] using h.2.2.2.1

/-! ## Theorems about observability health status -/

/-- C10: a window containing zero recorded model calls reports
`success_rate = 0` (the explicit Python fallback, not an absent value), so as
long as the configured minimum success rate is positive (default 0.95) the
metrics summary's health status for that empty window is `critical`, not
`healthy`. -/
theorem empty_window_health_critical
    (thr : ObservabilityThresholds) (st : MLOpsEventStore) (cutoff : String)
    (hempty : (st.get_performance_metrics none cutoff).total_calls = 0)
    (hthr : 0 < thr.success_rate) :
    (st.get_performance_metrics none cutoff).success_rate = 0 ∧
    (get_metrics_summary thr st cutoff).health_status = "critical" ∧
    (get_metrics_summary thr st cutoff).health_status ≠ "healthy" := by
  have hrate : (st.get_performance_metrics none cutoff).success_rate = 0 := by
    simp only [MLOpsEventStore.get_performance_metrics] at hempty ⊢
    rw [if_neg (by omega)]
  refine ⟨hrate, ?_, ?_⟩
  · simp only [get_metrics_summary, calculate_health_status, hrate]
    rw [if_pos hthr]
  · simp only [get_metrics_summary, calculate_health_status, hrate]
    rw [if_pos hthr]
    simp

/-- Witness for C10: the empty store with the default thresholds reports
success rate 0 and a `critical` health status. -/
theorem empty_window_health_critical_witness :
    (MLOpsEventStore.empty.get_performance_metrics none "t0").success_rate = 0 ∧
    (get_metrics_summary default_thresholds MLOpsEventStore.empty
      "t0").health_status = "critical" ∧
    (get_metrics_summary default_thresholds MLOpsEventStore.empty
      "t0").health_status ≠ "healthy" :=
  empty_window_health_critical default_thresholds MLOpsEventStore.empty "t0"
    (by rfl) (by norm_num [default_thresholds])

/-! ## Theorems about the deployment history -/

/-- Counterexample for C9: a rollback recorded for model `m1` is present in
the audit log (and in the unfiltered history) but does NOT appear in the
deployment history filtered by `m1`, because rollback audit entries carry no
`model_id` field. -/
theorem rollback_missing_from_filtered_history :
    (∃ e ∈ sampleGuardrails.audit_entries,
      e.action = "emergency_rollback") ∧
    (∃ e ∈ sampleGuardrails.get_deployment_history none 100,
      e.action = "emergency_rollback") ∧
    ∀ e ∈ sampleGuardrails.get_deployment_history (some "m1") 100,
      e.action ≠ "emergency_rollback" := by
  refine ⟨?_, ?_, ?_⟩
  · simp [sampleGuardrails, SafetyGuardrails.promote_model,
      SafetyGuardrails.rollback, SafetyGuardrails.audit_log,
      pyTruthyOptJson, Json.truthy, valid_paths]
  · have hmem : ∀ e ∈ sampleGuardrails.audit_entries,
        e ∈ sampleGuardrails.get_deployment_history none 100 := by
      intro e he
      unfold SafetyGuardrails.get_deployment_history
      rw [List.take_of_length_le]
      · rw [List.mem_mergeSort]
        refine List.mem_filter.mpr ⟨he, ?_⟩
        revert he
        simp [sampleGuardrails, SafetyGuardrails.promote_model,
          SafetyGuardrails.rollback, SafetyGuardrails.audit_log,
          pyTruthyOptJson, Json.truthy, valid_paths]
        rintro (rfl | rfl) <;> simp
      · rw [List.length_mergeSort]
        simp [sampleGuardrails, SafetyGuardrails.promote_model,
          SafetyGuardrails.rollback, SafetyGuardrails.audit_log,
          pyTruthyOptJson, Json.truthy, valid_paths]
    refine ⟨(⟨"t2", "emergency_rollback", "system",
        Json.obj [("current_model", Json.str "m1"),
          ("rollback_to", Json.str "m0"),
          ("reason", Json.str "perf regression"),
          ("rolled_back_at", Json.str "t2")]⟩ : AuditEntry),
      hmem _ ?_, rfl⟩
    simp [sampleGuardrails, SafetyGuardrails.promote_model,
      SafetyGuardrails.rollback, SafetyGuardrails.audit_log,
      pyTruthyOptJson, Json.truthy, valid_paths]
  · intro e he
    have : e.action = "model_promotion" := by
      revert he
      simp [sampleGuardrails, SafetyGuardrails.promote_model,
        SafetyGuardrails.rollback, SafetyGuardrails.audit_log,
        SafetyGuardrails.get_deployment_history, detailsModelIdEq,
        Json.lookup, List.lookup, pyTruthyOptJson, Json.truthy, valid_paths,
        Promotion.toJson, DeploymentStage.value, get_traffic_percentage]
      rintro rfl
      rfl
    rw [this]
    simp

/-- Decoding the history filter's model-id test: it passes only when the
details dict maps `model_id` to exactly that string. -/
theorem detailsModelIdEq_eq_true {d : Json} {m : String}
    (h : detailsModelIdEq d m = true) :
    Json.lookup d "model_id" = some (.str m) := by
  unfold detailsModelIdEq at h
  rcases hl : Json.lookup d "model_id" with - | j
  · rw [hl] at h
    simp at h
  · rw [hl] at h
    cases j <;> simp at h
    subst h
    rfl

/-- C9 (amended): the deployment history filtered by a model id returns only
promotion/rollback-action audit entries whose details carry that `model_id`,
ordered by timestamp most recent first; an `emergency_rollback` entry written
by `rollback` never appears in any model-id-filtered history (its details
carry `current_model`/`rollback_to`, not `model_id`), so rollbacks are visible
only in the unfiltered history. -/
theorem get_deployment_history_filtered_spec
    (g : SafetyGuardrails) (m : String) (limit : Nat) :
    (∀ e ∈ g.get_deployment_history (some m) limit,
      (e.action = "model_promotion" ∨ e.action = "emergency_rollback") ∧
      Json.lookup e.details "model_id" = some (.str m)) ∧
    (∀ now cur prev reason,
      ((g.rollback now cur prev reason).1).get_deployment_history (some m)
        limit = g.get_deployment_history (some m) limit) ∧
    (∀ e ∈ g.get_deployment_history none limit,
      e.action = "model_promotion" ∨ e.action = "emergency_rollback") ∧
    List.Pairwise (fun a b => b.timestamp ≤ a.timestamp)
      (g.get_deployment_history (some m) limit) := by
  refine ⟨?_, ?_, ?_, ?_⟩
  · intro e he
    have hmem := List.take_subset _ _ he
    rw [List.mem_mergeSort] at hmem
    obtain ⟨-, hpred⟩ := List.mem_filter.mp hmem
    simp only [Bool.and_eq_true, Bool.or_eq_true, decide_eq_true_eq] at hpred
    exact ⟨hpred.1, detailsModelIdEq_eq_true hpred.2⟩
  · intro now cur prev reason
    unfold SafetyGuardrails.get_deployment_history
    have hfilter :
        ((g.rollback now cur prev reason).1).audit_entries.filter (fun e =>
          (decide (e.action = "model_promotion") ||
            decide (e.action = "emergency_rollback")) &&
          detailsModelIdEq e.details m) =
        g.audit_entries.filter (fun e =>
          (decide (e.action = "model_promotion") ||
            decide (e.action = "emergency_rollback")) &&
          detailsModelIdEq e.details m) := by
      simp [SafetyGuardrails.rollback, SafetyGuardrails.audit_log,
        List.filter_append, detailsModelIdEq, Json.lookup, List.lookup]
    rw [hfilter]
  · intro e he
    have hmem := List.take_subset _ _ he
    rw [List.mem_mergeSort] at hmem
    obtain ⟨-, hpred⟩ := List.mem_filter.mp hmem
    simpa using hpred
  · have hsorted := @List.sorted_mergeSort AuditEntry
      (fun a b : AuditEntry => decide (b.timestamp ≤ a.timestamp))
      (fun a b c h1 h2 => by
        simp only [decide_eq_true_eq] at *
        exact le_trans h2 h1)
      (fun a b => by
        simpa using le_total b.timestamp a.timestamp)
      (g.audit_entries.filter (fun e =>
        (decide (e.action = "model_promotion") ||
          decide (e.action = "emergency_rollback")) &&
        (match some m with
         | none => true
         | some m => detailsModelIdEq e.details m)))
    have hsub : List.Sublist
        (g.get_deployment_history (some m) limit)
        ((g.audit_entries.filter (fun e =>
          (decide (e.action = "model_promotion") ||
            decide (e.action = "emergency_rollback")) &&
          (match some m with
           | none => true
           | some m => detailsModelIdEq e.details m))).mergeSort
          (fun a b => decide (b.timestamp ≤ a.timestamp))) :=
      List.take_sublist _ _
    exact List.Pairwise.sublist hsub (hsorted.imp (fun h => by simpa using h))

/-- Witness for the amended C9: on the concrete promoted-then-rolled-back
state, recording a further rollback leaves the `m1`-filtered history
unchanged. -/
theorem get_deployment_history_filtered_spec_witness :
    ((sampleGuardrails.rollback "t3" "m1" "m0" "again").1).get_deployment_history
        (some "m1") 100 =
      sampleGuardrails.get_deployment_history (some "m1") 100 :=
  (get_deployment_history_filtered_spec sampleGuardrails "m1" 100).2.1
    "t3" "m1" "m0" "again"
